import Mathlib

/-!
Shallow embedding of `examples/safe/src/main.rs` from `b-zee/rust-libp2p`:
a minimal libp2p node composing AutoNAT, Identify and KeepAlive behaviours,
with a control loop that listens on 127.0.0.1 and dials a configured list of
bootstrap peers exactly once, on the first `NewListenAddr` event.

Pure Rust functions become Lean functions; the mutable swarm and the
`bootstrapped` flag become explicit state threaded through a fold over the
(finite prefix of the) event stream; `Result` becomes `Except`.
-/

namespace Safe

/-- A single component of a multiaddress, mirroring `libp2p::multiaddr::Protocol`
as used by the example (`Ip4` and `Tcp`; other protocols collapsed to `other`). -/
inductive Proto where
  | ip4 (a b c d : Nat)
  | tcp (port : Nat)
  | other (tag : Nat)
  deriving DecidableEq, Repr

/-- `libp2p::Multiaddr`: a sequence of protocol components. -/
abbrev Multiaddr := List Proto

/-- `Multiaddr::from(Ipv4Addr)`: a one-component address. -/
def Multiaddr.fromIpv4 (a b c d : Nat) : Multiaddr := [Proto.ip4 a b c d]

/-- `Multiaddr::with`: append a protocol component. -/
def Multiaddr.withProto (m : Multiaddr) (p : Proto) : Multiaddr := m ++ [p]

/-- Key material of an `identity::Keypair` public key (abstract bytes). -/
structure PublicKey where
  material : Nat
  deriving DecidableEq, Repr

/-- A libp2p `PeerId`. -/
structure PeerId where
  bytes : Nat
  deriving DecidableEq, Repr

/-- Modelled from the spec: `PeerId::from(PublicKey)` is library code not under
`src/`; the spec requires the derived node identifier to be a deterministic
function of the public key. We model it as a Lean function (hence
deterministic) on the key material. -/
def PeerId.fromPublicKey (k : PublicKey) : PeerId := ⟨k.material⟩

/-- The `Opt` command-line options struct: listen port (default 0) and the
bootstrap peer list. -/
structure Opt where
  port : Nat
  peers : List Multiaddr

/-- `Duration` restricted to whole seconds, as all durations in the example
are built with `Duration::from_secs`. -/
structure Duration where
  secs : Nat
  deriving DecidableEq, Repr

/-- `Duration::from_secs`. -/
def Duration.from_secs (n : Nat) : Duration := ⟨n⟩

/-- The fields of `libp2p::autonat::Config` that `Behaviour::new` sets
explicitly; the remaining fields are filled by `..Default::default()` and are
not inspected by the example. -/
structure AutoNatConfig where
  only_global_ips : Bool
  boot_delay : Duration
  timeout : Duration
  throttle_server_period : Duration
  deriving DecidableEq, Repr

/-- `libp2p::autonat::Behaviour` as far as the example observes it: the local
peer id and the configuration it was constructed with. -/
structure AutoNatBehaviour where
  local_peer_id : PeerId
  config : AutoNatConfig
  deriving DecidableEq, Repr

/-- `autonat::Behaviour::new(peer_id, config)`. -/
def AutoNatBehaviour.new (peer_id : PeerId) (config : AutoNatConfig) : AutoNatBehaviour :=
  ⟨peer_id, config⟩

/-- `libp2p::identify::Config::new(protocol_version, local_public_key)`. -/
structure IdentifyConfig where
  protocol_version : String
  local_public_key : PublicKey
  deriving DecidableEq, Repr

/-- `libp2p::identify::Behaviour` as constructed by the example. -/
structure IdentifyBehaviour where
  config : IdentifyConfig
  deriving DecidableEq, Repr

/-- The composed `Behaviour` struct: AutoNAT, Identify, and KeepAlive
(the latter carries no state the example observes). -/
structure Behaviour where
  auto_nat : AutoNatBehaviour
  identify : IdentifyBehaviour
  deriving DecidableEq, Repr

/-- `Behaviour::new(local_public_key)` from the source: constructs AutoNAT with
`only_global_ips: false`, `boot_delay: 3s`, `timeout: 301s`,
`throttle_server_period: 15s`, and Identify with protocol version
`/safe/0.1.0` and the local public key. -/
def Behaviour.new (local_public_key : PublicKey) : Behaviour :=
  let peer_id := PeerId.fromPublicKey local_public_key
  { auto_nat :=
      AutoNatBehaviour.new peer_id
        { only_global_ips := false
          boot_delay := Duration.from_secs 3
          timeout := Duration.from_secs 301
          throttle_server_period := Duration.from_secs 15 }
    identify :=
      { config :=
          { protocol_version := "/safe/0.1.0"
            local_public_key := local_public_key } } }

/-- `identify::Info` as far as `handle_event` reads it. -/
structure IdentifyInfo where
  observed_addr : Multiaddr
  deriving DecidableEq, Repr

/-- `libp2p::identify::Event`. -/
inductive IdentifyEvent where
  | received (peer_id : PeerId) (info : IdentifyInfo)
  | sent (peer_id : PeerId)
  | pushed (peer_id : PeerId)
  | error (peer_id : PeerId)
  deriving DecidableEq, Repr

/-- `libp2p::autonat::InboundProbeEvent`. -/
inductive InboundProbeEvent where
  | request (probe_id : Nat) (peer : PeerId) (addresses : List Multiaddr)
  | response (probe_id : Nat) (peer : PeerId) (address : Multiaddr)
  | error (probe_id : Nat) (peer : PeerId)
  deriving DecidableEq, Repr

/-- `libp2p::autonat::OutboundProbeEvent`. -/
inductive OutboundProbeEvent where
  | request (probe_id : Nat) (peer : PeerId)
  | response (probe_id : Nat) (peer : PeerId) (address : Multiaddr)
  | error (probe_id : Nat)
  deriving DecidableEq, Repr

/-- `libp2p::autonat::NatStatus`. -/
inductive NatStatus where
  | publicStatus (address : Multiaddr)
  | privateStatus
  | unknown
  deriving DecidableEq, Repr

/-- `libp2p::autonat::Event`. -/
inductive AutoNatEvent where
  | inboundProbe (e : InboundProbeEvent)
  | outboundProbe (e : OutboundProbeEvent)
  | statusChanged (old new : NatStatus)
  deriving DecidableEq, Repr

/-- The example's derived `Event` enum: tagged union of the three behaviours'
event types. `KeepAlive` wraps `Void`, which is uninhabited (`Empty`). -/
inductive Event where
  | autoNat (e : AutoNatEvent)
  | identify (e : IdentifyEvent)
  | keepAlive (v : Empty)
  deriving DecidableEq, Repr

/-- `libp2p::swarm::SwarmEvent` as far as the example matches on it:
`NewListenAddr` and `Behaviour` are named; the other variants of the library
enum (connection lifecycle, listener lifecycle, dialing) fall under the
wildcard arm in `handle_event` and are modelled explicitly here so the
wildcard is meaningful. -/
inductive SwarmEvent where
  | behaviour (e : Event)
  | newListenAddr (listener_id : Nat) (address : Multiaddr)
  | connectionEstablished (peer_id : PeerId)
  | connectionClosed (peer_id : PeerId)
  | incomingConnection (local_addr : Multiaddr)
  | incomingConnectionError (local_addr : Multiaddr)
  | outgoingConnectionError (peer_id : Option PeerId)
  | expiredListenAddr (listener_id : Nat) (address : Multiaddr)
  | listenerClosed (listener_id : Nat)
  | listenerError (listener_id : Nat)
  | dialing (peer_id : PeerId)
  deriving DecidableEq, Repr

/-- The example's `NodeEvent` enum returned by `handle_event`. -/
inductive NodeEvent where
  | none
  | newListenAddr (address : Multiaddr)
  deriving DecidableEq, Repr

/-- The error type of `handle_event` and `main` (`Box<dyn Error>`); abstract. -/
structure BoxedError where
  message : String
  deriving DecidableEq, Repr

/-- `DialError` returned synchronously by `Swarm::dial`. -/
structure DialError where
  message : String
  deriving DecidableEq, Repr

/-- The swarm as the control loop observes and mutates it: an environment
oracle fixing the synchronous outcome of each dial request, plus the trace of
dial requests issued (in order) and the trace of listen requests issued. -/
structure SwarmState where
  dialOutcome : Multiaddr → Except DialError Unit
  dialRequests : List Multiaddr
  listenRequests : List Multiaddr

/-- `Swarm::dial(addr)`: records the request and returns the synchronous
outcome from the environment. -/
def SwarmState.dial (s : SwarmState) (addr : Multiaddr) :
    Except DialError Unit × SwarmState :=
  (s.dialOutcome addr, { s with dialRequests := s.dialRequests ++ [addr] })

/-- A log line, as far as the embedding tracks logging. -/
inductive LogLine where
  | traceEvent (event : SwarmEvent)
  | identifyInfo (peer_id : PeerId) (observed_addr : Multiaddr)
  | autoNatInboundProbe (e : InboundProbeEvent)
  | dialingBootstrapPeer
  | dialingBootstrapPeerError (err : DialError)
  deriving DecidableEq, Repr

/-- `handle_event` from the source. It takes the options and the swarm by
(mutable) reference but only logs; it returns the node event, the swarm state
unchanged, and the log lines it emitted. The `Result` return type is kept as
`Except` even though every path returns `Ok`. -/
def handle_event (_opt : Opt) (swarm : SwarmState) (event : SwarmEvent) :
    Except BoxedError NodeEvent × SwarmState × List LogLine :=
  let trace := [LogLine.traceEvent event]
  match event with
  | SwarmEvent.newListenAddr _ address =>
      (Except.ok (NodeEvent.newListenAddr address), swarm, trace)
  | SwarmEvent.behaviour (Event.identify (IdentifyEvent.received peer_id info)) =>
      (Except.ok NodeEvent.none, swarm,
        trace ++ [LogLine.identifyInfo peer_id info.observed_addr])
  | SwarmEvent.behaviour (Event.autoNat (AutoNatEvent.inboundProbe
      (InboundProbeEvent.request probe_id peer addresses))) =>
      (Except.ok NodeEvent.none, swarm,
        trace ++ [LogLine.autoNatInboundProbe
          (InboundProbeEvent.request probe_id peer addresses)])
  | _ => (Except.ok NodeEvent.none, swarm, trace)

/-- The bootstrap dial batch from the body of `main`'s loop: for each address
in `peers`, in order, log, issue the dial, and log any error; no failure stops
the iteration or escapes. -/
def dialBootstrapPeers (peers : List Multiaddr) (swarm : SwarmState) :
    SwarmState × List LogLine :=
  match peers with
  | [] => (swarm, [])
  | addr :: rest =>
      let (res, swarm1) := swarm.dial addr
      let logs :=
        match res with
        | Except.ok _ => [LogLine.dialingBootstrapPeer]
        | Except.error err =>
            [LogLine.dialingBootstrapPeer, LogLine.dialingBootstrapPeerError err]
      let (swarm2, logsRest) := dialBootstrapPeers rest swarm1
      (swarm2, logs ++ logsRest)

/-- The control-loop state owned by `main`: the `bootstrapped` flag and the
swarm. -/
structure LoopState where
  bootstrapped : Bool
  swarm : SwarmState

/-- One iteration of `main`'s loop on one swarm event: call `handle_event`,
propagate its error with `?`, and on `NewListenAddr` run the bootstrap dial
batch unless `bootstrapped` is already set. -/
def loopStep (opt : Opt) (st : LoopState) (event : SwarmEvent) :
    Except BoxedError (LoopState × List LogLine) :=
  let (res, swarm, logs) := handle_event opt st.swarm event
  match res with
  | Except.error e => Except.error e
  | Except.ok (NodeEvent.newListenAddr _) =>
      if st.bootstrapped then
        Except.ok ({ bootstrapped := st.bootstrapped, swarm := swarm }, logs)
      else
        let (swarm2, dialLogs) := dialBootstrapPeers opt.peers swarm
        Except.ok ({ bootstrapped := true, swarm := swarm2 }, logs ++ dialLogs)
  | Except.ok NodeEvent.none =>
      Except.ok ({ bootstrapped := st.bootstrapped, swarm := swarm }, logs)

/-- The control loop run over a finite prefix of the event stream. -/
def runLoop (opt : Opt) (st : LoopState) : List SwarmEvent →
    Except BoxedError (LoopState × List LogLine)
  | [] => Except.ok (st, [])
  | event :: rest =>
      match loopStep opt st event with
      | Except.error e => Except.error e
      | Except.ok (st1, logs1) =>
          match runLoop opt st1 rest with
          | Except.error e => Except.error e
          | Except.ok (st2, logs2) => Except.ok (st2, logs1 ++ logs2)

/-- The listen address built by `main`:
`Multiaddr::from(Ipv4Addr::new(127, 0, 0, 1)).with(Protocol::Tcp(opt.port))`. -/
def listenAddr (port : Nat) : Multiaddr :=
  (Multiaddr.fromIpv4 127 0 0 1).withProto (Proto.tcp port)

/-- `SetupError`: a fatal error surfaced by `main` before the loop
(`Swarm::listen_on` failure). -/
structure ListenError where
  message : String
  deriving DecidableEq, Repr

/-- Outcome of a `main` run over a finite prefix of the event stream: either a
propagated fatal error (the process exits non-zero) or the loop state reached. -/
structure MainRun where
  outcome : Except BoxedError LoopState
  listenRequests : List Multiaddr
  dialRequests : List Multiaddr
  enteredLoop : Bool

/-- `main` from the source, over a finite prefix of the event stream and an
environment fixing the synchronous results of `listen_on` and `dial`:
derive the peer id, build the behaviour and swarm, request the single listen
bind (propagating failure with `?` before the loop starts), then run the loop
with `bootstrapped = false`. -/
def runMain (opt : Opt) (local_key : PublicKey)
    (listenOutcome : Except ListenError Unit)
    (dialOutcome : Multiaddr → Except DialError Unit)
    (events : List SwarmEvent) : MainRun :=
  let _local_peer_id := PeerId.fromPublicKey local_key
  let _behaviour := Behaviour.new local_key
  let addr := listenAddr opt.port
  let swarm0 : SwarmState :=
    { dialOutcome := dialOutcome, dialRequests := [], listenRequests := [addr] }
  match listenOutcome with
  | Except.error e =>
      { outcome := Except.error ⟨e.message⟩
        listenRequests := [addr]
        dialRequests := []
        enteredLoop := false }
  | Except.ok _ =>
      match runLoop opt { bootstrapped := false, swarm := swarm0 } events with
      | Except.error e =>
          { outcome := Except.error e
            listenRequests := [addr]
            dialRequests := []
            enteredLoop := true }
      | Except.ok (st, _) =>
          { outcome := Except.ok st
            listenRequests := st.swarm.listenRequests
            dialRequests := st.swarm.dialRequests
            enteredLoop := true }

/-- Process exit code: `main` returning `Err` exits non-zero, `Ok` exits 0. -/
def exitCode (r : MainRun) : Nat :=
  match r.outcome with
  | Except.error _ => 1
  | Except.ok _ => 0

/-- The `local_peer_id` computed at the top of `main`:
`PeerId::from(local_key.public())`. -/
def mainLocalPeerId (local_key : PublicKey) : PeerId :=
  PeerId.fromPublicKey local_key

/-- The node event `handle_event` maps a swarm event to (the pure content of
its dispatch): `NewListenAddr` for a `NewListenAddr` event, `None` otherwise. -/
def nodeEventOf : SwarmEvent → NodeEvent
  | SwarmEvent.newListenAddr _ address => NodeEvent.newListenAddr address
  | _ => NodeEvent.none

/-- The state part of one loop iteration (the loop body of `main` with logging
erased): dial the bootstrap peers on a first `NewListenAddr`, otherwise leave
the state alone. -/
def stepState (opt : Opt) (st : LoopState) (e : SwarmEvent) : LoopState :=
  match nodeEventOf e with
  | NodeEvent.newListenAddr _ =>
      if st.bootstrapped then st
      else { bootstrapped := true, swarm := (dialBootstrapPeers opt.peers st.swarm).1 }
  | NodeEvent.none => st

/-- Modelled from the spec: the Event Aggregator (the derived
`NetworkBehaviour` composition, library/macro code not under `src/`) merges
the three behaviours' event streams into one stream of `Event` values,
"preserving arrival order … no reordering or batching" and dropping nothing.
An aggregated stream is any order-preserving interleaving of the three
per-behaviour streams. -/
inductive Interleaves :
    List AutoNatEvent → List IdentifyEvent → List Empty → List Event → Prop where
  | nil : Interleaves [] [] [] []
  | consAutoNat {as is ks m} (a : AutoNatEvent) :
      Interleaves as is ks m →
      Interleaves (a :: as) is ks (Event.autoNat a :: m)
  | consIdentify {as is ks m} (i : IdentifyEvent) :
      Interleaves as is ks m →
      Interleaves as (i :: is) ks (Event.identify i :: m)
  | consKeepAlive {as is ks m} (k : Empty) :
      Interleaves as is ks m →
      Interleaves as is (k :: ks) (Event.keepAlive k :: m)

/-- Projection of an aggregated stream back onto the AutoNAT source. -/
def autoNatEvents : List Event → List AutoNatEvent
  | [] => []
  | Event.autoNat a :: rest => a :: autoNatEvents rest
  | _ :: rest => autoNatEvents rest

/-- Projection of an aggregated stream back onto the Identify source. -/
def identifyEvents : List Event → List IdentifyEvent
  | [] => []
  | Event.identify i :: rest => i :: identifyEvents rest
  | _ :: rest => identifyEvents rest

/-- A sample public key for concrete instantiations. -/
def sampleKey : PublicKey := ⟨42⟩

/-- A sample remote multiaddress. -/
def sampleAddr : Multiaddr := [Proto.ip4 10 0 0 1, Proto.tcp 4001]

/-- A sample bootstrap peer list of two addresses. -/
def samplePeers : List Multiaddr :=
  [[Proto.ip4 10 0 0 2, Proto.tcp 4001], [Proto.ip4 10 0 0 3, Proto.tcp 4001]]

/-- Sample startup options. -/
def sampleOpt : Opt := { port := 0, peers := samplePeers }

/-- A sample swarm state whose dials all succeed synchronously. -/
def sampleSwarm : SwarmState :=
  { dialOutcome := fun _ => Except.ok ()
    dialRequests := []
    listenRequests := [listenAddr 0] }

/-- A sample AutoNAT event stream of one event. -/
def sampleAutoNatStream : List AutoNatEvent :=
  [AutoNatEvent.statusChanged NatStatus.unknown NatStatus.privateStatus]

/-- A sample Identify event stream of one event. -/
def sampleIdentifyStream : List IdentifyEvent := [IdentifyEvent.sent ⟨1⟩]

/-- A sample aggregated stream interleaving the two sample streams. -/
def sampleMerged : List Event :=
  [Event.identify (IdentifyEvent.sent ⟨1⟩),
   Event.autoNat (AutoNatEvent.statusChanged NatStatus.unknown NatStatus.privateStatus)]

/-! ## Helper lemmas -/

theorem handle_event_fst (opt : Opt) (s : SwarmState) (e : SwarmEvent) :
    (handle_event opt s e).1 = Except.ok (nodeEventOf e) := by
  cases e with
  | behaviour ev =>
    cases ev with
    | autoNat a =>
      cases a with
      | inboundProbe ip => cases ip <;> rfl
      | outboundProbe op => cases op <;> rfl
      | statusChanged o n => rfl
    | identify i => cases i <;> rfl
    | keepAlive v => exact v.elim
  | newListenAddr lid a => rfl
  | connectionEstablished p => rfl
  | connectionClosed p => rfl
  | incomingConnection a => rfl
  | incomingConnectionError a => rfl
  | outgoingConnectionError p => rfl
  | expiredListenAddr lid a => rfl
  | listenerClosed lid => rfl
  | listenerError lid => rfl
  | dialing p => rfl

theorem handle_event_swarm (opt : Opt) (s : SwarmState) (e : SwarmEvent) :
    (handle_event opt s e).2.1 = s := by
  cases e with
  | behaviour ev =>
    cases ev with
    | autoNat a =>
      cases a with
      | inboundProbe ip => cases ip <;> rfl
      | outboundProbe op => cases op <;> rfl
      | statusChanged o n => rfl
    | identify i => cases i <;> rfl
    | keepAlive v => exact v.elim
  | newListenAddr lid a => rfl
  | connectionEstablished p => rfl
  | connectionClosed p => rfl
  | incomingConnection a => rfl
  | incomingConnectionError a => rfl
  | outgoingConnectionError p => rfl
  | expiredListenAddr lid a => rfl
  | listenerClosed lid => rfl
  | listenerError lid => rfl
  | dialing p => rfl

theorem dialBootstrapPeers_fst (peers : List Multiaddr) (s : SwarmState) :
    (dialBootstrapPeers peers s).1
      = { s with dialRequests := s.dialRequests ++ peers } := by
  induction peers generalizing s with
  | nil => simp [dialBootstrapPeers]
  | cons addr rest ih =>
    have h1 : (dialBootstrapPeers (addr :: rest) s).1
        = (dialBootstrapPeers rest (s.dial addr).2).1 := rfl
    rw [h1, ih]
    simp [SwarmState.dial]

theorem loopStep_eq (opt : Opt) (st : LoopState) (e : SwarmEvent) :
    ∃ logs, loopStep opt st e = Except.ok (stepState opt st e, logs) := by
  obtain ⟨b, s⟩ := st
  cases e with
  | behaviour ev =>
    cases ev with
    | autoNat a =>
      cases a with
      | inboundProbe ip => cases ip <;> exact ⟨_, rfl⟩
      | outboundProbe op => cases op <;> exact ⟨_, rfl⟩
      | statusChanged o n => exact ⟨_, rfl⟩
    | identify i => cases i <;> exact ⟨_, rfl⟩
    | keepAlive v => exact v.elim
  | newListenAddr lid a => cases b <;> exact ⟨_, rfl⟩
  | connectionEstablished p => exact ⟨_, rfl⟩
  | connectionClosed p => exact ⟨_, rfl⟩
  | incomingConnection a => exact ⟨_, rfl⟩
  | incomingConnectionError a => exact ⟨_, rfl⟩
  | outgoingConnectionError p => exact ⟨_, rfl⟩
  | expiredListenAddr lid a => exact ⟨_, rfl⟩
  | listenerClosed lid => exact ⟨_, rfl⟩
  | listenerError lid => exact ⟨_, rfl⟩
  | dialing p => exact ⟨_, rfl⟩

theorem runLoop_eq (opt : Opt) (st : LoopState) (evs : List SwarmEvent) :
    ∃ logs, runLoop opt st evs
      = Except.ok (List.foldl (stepState opt) st evs, logs) := by
  induction evs generalizing st with
  | nil => exact ⟨[], rfl⟩
  | cons e rest ih =>
    obtain ⟨l1, h1⟩ := loopStep_eq opt st e
    obtain ⟨l2, h2⟩ := ih (stepState opt st e)
    exact ⟨l1 ++ l2, by simp [runLoop, h1, h2]⟩

theorem stepState_none (opt : Opt) (st : LoopState) (e : SwarmEvent)
    (h : nodeEventOf e = NodeEvent.none) : stepState opt st e = st := by
  simp [stepState, h]

theorem stepState_bootstrapped (opt : Opt) (s : SwarmState) (e : SwarmEvent) :
    stepState opt { bootstrapped := true, swarm := s } e
      = { bootstrapped := true, swarm := s } := by
  unfold stepState
  cases nodeEventOf e <;> simp

theorem foldl_stepState_bootstrapped (opt : Opt) (s : SwarmState)
    (evs : List SwarmEvent) :
    List.foldl (stepState opt) { bootstrapped := true, swarm := s } evs
      = { bootstrapped := true, swarm := s } := by
  induction evs with
  | nil => rfl
  | cons e rest ih => rw [List.foldl_cons, stepState_bootstrapped, ih]

theorem nodeEventOf_none_of_ne (e : SwarmEvent)
    (h : ∀ lid a, e ≠ SwarmEvent.newListenAddr lid a) :
    nodeEventOf e = NodeEvent.none := by
  cases e with
  | newListenAddr lid a => exact absurd rfl (h lid a)
  | behaviour ev => rfl
  | connectionEstablished p => rfl
  | connectionClosed p => rfl
  | incomingConnection a => rfl
  | incomingConnectionError a => rfl
  | outgoingConnectionError p => rfl
  | expiredListenAddr lid a => rfl
  | listenerClosed lid => rfl
  | listenerError lid => rfl
  | dialing p => rfl

theorem foldl_stepState_nones (opt : Opt) (st : LoopState)
    (evs : List SwarmEvent)
    (h : ∀ e ∈ evs, ∀ lid a, e ≠ SwarmEvent.newListenAddr lid a) :
    List.foldl (stepState opt) st evs = st := by
  induction evs generalizing st with
  | nil => rfl
  | cons e rest ih =>
    rw [List.foldl_cons,
      stepState_none opt st e
        (nodeEventOf_none_of_ne e (h e (List.mem_cons_self e rest)))]
    exact ih st fun e2 he2 => h e2 (List.mem_cons_of_mem e he2)

theorem dialBootstrapPeers_error_logged (peers : List Multiaddr)
    (s : SwarmState) :
    ∀ addr ∈ peers, ∀ err, s.dialOutcome addr = Except.error err →
      LogLine.dialingBootstrapPeerError err ∈ (dialBootstrapPeers peers s).2 := by
  induction peers generalizing s with
  | nil => intro addr h; simp at h
  | cons a rest ih =>
    intro addr haddr err herr
    have hsnd : (dialBootstrapPeers (a :: rest) s).2
        = (match s.dialOutcome a with
            | Except.ok _ => [LogLine.dialingBootstrapPeer]
            | Except.error e =>
                [LogLine.dialingBootstrapPeer, LogLine.dialingBootstrapPeerError e])
          ++ (dialBootstrapPeers rest (s.dial a).2).2 := rfl
    rw [hsnd]
    rcases List.mem_cons.mp haddr with heq | hmem
    · subst heq
      rw [herr]
      simp
    · refine List.mem_append_right _ ?_
      exact ih (s.dial a).2 addr hmem err herr

theorem stepState_listenRequests (opt : Opt) (st : LoopState) (e : SwarmEvent) :
    (stepState opt st e).swarm.listenRequests = st.swarm.listenRequests := by
  unfold stepState
  cases nodeEventOf e with
  | none => rfl
  | newListenAddr a =>
    cases hb : st.bootstrapped
    · simp [hb, dialBootstrapPeers_fst]
    · simp [hb]

theorem foldl_stepState_listenRequests (opt : Opt) (st : LoopState)
    (evs : List SwarmEvent) :
    (List.foldl (stepState opt) st evs).swarm.listenRequests
      = st.swarm.listenRequests := by
  induction evs generalizing st with
  | nil => rfl
  | cons e rest ih => rw [List.foldl_cons, ih, stepState_listenRequests]

theorem nodeEventOf_newListenAddr_iff (e : SwarmEvent) (a : Multiaddr) :
    nodeEventOf e = NodeEvent.newListenAddr a
      ↔ ∃ lid, e = SwarmEvent.newListenAddr lid a := by
  cases e <;> simp [nodeEventOf]

/-! ## Claim theorems -/

/-- Claim C1: on any event sequence whose first `NewListenAddr` event is
preceded only by non-`NewListenAddr` events, the control loop started with
`bootstrapped = false` ends (whatever events follow, including further
`NewListenAddr` events) with `bootstrapped = true` and with exactly one
bootstrap dial batch issued — the dial-request trace grows by exactly
`opt.peers`, in list order, and by nothing else. -/
theorem bootstrap_dial_exactly_once (opt : Opt) (s0 : SwarmState)
    (pre post : List SwarmEvent) (lid : Nat) (a : Multiaddr)
    (hpre : ∀ e ∈ pre, ∀ lid2 a2, e ≠ SwarmEvent.newListenAddr lid2 a2) :
    ∃ logs,
      runLoop opt { bootstrapped := false, swarm := s0 }
          (pre ++ SwarmEvent.newListenAddr lid a :: post)
        = Except.ok
            ({ bootstrapped := true,
               swarm :=
                { s0 with dialRequests := s0.dialRequests ++ opt.peers } },
             logs) := by
  obtain ⟨logs, h⟩ := runLoop_eq opt { bootstrapped := false, swarm := s0 }
    (pre ++ SwarmEvent.newListenAddr lid a :: post)
  refine ⟨logs, ?_⟩
  rw [h, List.foldl_append, foldl_stepState_nones opt _ pre hpre,
    List.foldl_cons]
  have hstep : stepState opt { bootstrapped := false, swarm := s0 }
      (SwarmEvent.newListenAddr lid a)
      = { bootstrapped := true,
          swarm := (dialBootstrapPeers opt.peers s0).1 } := rfl
  rw [hstep, foldl_stepState_bootstrapped, dialBootstrapPeers_fst]

theorem bootstrap_dial_exactly_once_witness :
    (∀ e ∈ [SwarmEvent.connectionEstablished ⟨5⟩], ∀ lid2 a2,
        e ≠ SwarmEvent.newListenAddr lid2 a2)
    ∧ ∃ logs,
      runLoop sampleOpt { bootstrapped := false, swarm := sampleSwarm }
          ([SwarmEvent.connectionEstablished ⟨5⟩]
            ++ SwarmEvent.newListenAddr 0 sampleAddr
              :: [SwarmEvent.newListenAddr 1 sampleAddr])
        = Except.ok
            ({ bootstrapped := true,
               swarm :=
                { sampleSwarm with
                    dialRequests :=
                      sampleSwarm.dialRequests ++ sampleOpt.peers } },
             logs) :=
  ⟨by intro e he lid2 a2; simp at he; subst he; simp,
   bootstrap_dial_exactly_once sampleOpt sampleSwarm
     [SwarmEvent.connectionEstablished ⟨5⟩]
     [SwarmEvent.newListenAddr 1 sampleAddr] 0 sampleAddr
     (by intro e he lid2 a2; simp at he; subst he; simp)⟩

/-- Claim C2: the bootstrap dial batch issues one dial request per configured
address, in list order, whatever the per-address dial outcomes are; each
per-address failure is logged (an error log line for that failure appears in
the batch's log) and aborts nothing; and the loop iteration performing the
batch returns `Ok`, so no dial failure terminates the loop or propagates. -/
theorem dial_batch_isolates_failures (opt : Opt) (s : SwarmState) :
    ((dialBootstrapPeers opt.peers s).1).dialRequests
        = s.dialRequests ++ opt.peers
    ∧ (∀ addr ∈ opt.peers, ∀ err, s.dialOutcome addr = Except.error err →
        LogLine.dialingBootstrapPeerError err ∈ (dialBootstrapPeers opt.peers s).2)
    ∧ (∀ lid a, ∃ st1 logs,
        loopStep opt { bootstrapped := false, swarm := s }
            (SwarmEvent.newListenAddr lid a)
          = Except.ok (st1, logs)) := by
  refine ⟨?_, dialBootstrapPeers_error_logged opt.peers s, ?_⟩
  · rw [dialBootstrapPeers_fst]
  · intro lid a
    obtain ⟨logs, h⟩ := loopStep_eq opt { bootstrapped := false, swarm := s }
      (SwarmEvent.newListenAddr lid a)
    exact ⟨_, logs, h⟩

/-- Claim C3: every swarm event that is not a `NewListenAddr` — Identify
`Received` and AutoNAT inbound probe `Request` events (logged) and every
other variant (silently ignored) — makes `handle_event` return
`Ok(NodeEvent::None)`, and the loop iteration leaves the whole loop state
(the `bootstrapped` flag and the swarm, so in particular the dial-request
trace) unchanged and returns `Ok`. -/
theorem other_events_noop (opt : Opt) (st : LoopState) (e : SwarmEvent)
    (h : ∀ lid a, e ≠ SwarmEvent.newListenAddr lid a) :
    (handle_event opt st.swarm e).1 = Except.ok NodeEvent.none
    ∧ ∃ logs, loopStep opt st e = Except.ok (st, logs) := by
  have hn := nodeEventOf_none_of_ne e h
  constructor
  · rw [handle_event_fst, hn]
  · obtain ⟨logs, hl⟩ := loopStep_eq opt st e
    exact ⟨logs, by rw [hl, stepState_none opt st e hn]⟩

theorem other_events_noop_witness :
    (∀ lid a,
        SwarmEvent.behaviour
            (Event.identify (IdentifyEvent.received ⟨7⟩ ⟨sampleAddr⟩))
          ≠ SwarmEvent.newListenAddr lid a)
    ∧ ((handle_event sampleOpt
          ({ bootstrapped := false, swarm := sampleSwarm } : LoopState).swarm
          (SwarmEvent.behaviour
            (Event.identify (IdentifyEvent.received ⟨7⟩ ⟨sampleAddr⟩)))).1
        = Except.ok NodeEvent.none
      ∧ ∃ logs,
          loopStep sampleOpt { bootstrapped := false, swarm := sampleSwarm }
              (SwarmEvent.behaviour
                (Event.identify (IdentifyEvent.received ⟨7⟩ ⟨sampleAddr⟩)))
            = Except.ok
                ({ bootstrapped := false, swarm := sampleSwarm }, logs)) :=
  ⟨by intro lid a; simp,
   other_events_noop sampleOpt { bootstrapped := false, swarm := sampleSwarm }
     (SwarmEvent.behaviour
       (Event.identify (IdentifyEvent.received ⟨7⟩ ⟨sampleAddr⟩)))
     (by intro lid a; simp)⟩

/-- Claim C4: when the initial `listen_on` request fails, `main` propagates
the error (the run's outcome is that error, so the process exits non-zero),
the loop is never entered, and no dial request is issued. -/
theorem listen_failure_exits_nonzero (opt : Opt) (key : PublicKey)
    (err : ListenError) (d : Multiaddr → Except DialError Unit)
    (events : List SwarmEvent) :
    runMain opt key (Except.error err) d events
      = { outcome := Except.error ⟨err.message⟩
          listenRequests := [listenAddr opt.port]
          dialRequests := []
          enteredLoop := false }
    ∧ exitCode (runMain opt key (Except.error err) d events) ≠ 0 :=
  ⟨rfl, fun h => Nat.one_ne_zero h⟩

/-- Claim C5: the AutoNAT behaviour is constructed with
`only_global_ips = false`, `boot_delay = 3s`, `timeout = 301s` and
`throttle_server_period = 15s`, exactly the defaults the spec states. -/
theorem autonat_config_defaults (k : PublicKey) :
    (Behaviour.new k).auto_nat.config.only_global_ips = false
    ∧ (Behaviour.new k).auto_nat.config.boot_delay = Duration.from_secs 3
    ∧ (Behaviour.new k).auto_nat.config.timeout = Duration.from_secs 301
    ∧ (Behaviour.new k).auto_nat.config.throttle_server_period
        = Duration.from_secs 15 :=
  ⟨rfl, rfl, rfl, rfl⟩

/-- Claim C6: the node identifier is a deterministic function of the public
key — any two derivations from the same key agree — and in particular the
peer id `main` passes to the swarm builder equals the peer id
`Behaviour::new` derives for the AutoNAT behaviour from the same key. -/
theorem node_id_deterministic (k k1 k2 : PublicKey) (h1 : k1 = k)
    (h2 : k2 = k) :
    PeerId.fromPublicKey k1 = PeerId.fromPublicKey k2
    ∧ mainLocalPeerId k = (Behaviour.new k).auto_nat.local_peer_id := by
  subst h1
  subst h2
  exact ⟨rfl, rfl⟩

theorem node_id_deterministic_witness :
    PeerId.fromPublicKey sampleKey = PeerId.fromPublicKey sampleKey
    ∧ mainLocalPeerId sampleKey
        = (Behaviour.new sampleKey).auto_nat.local_peer_id :=
  node_id_deterministic sampleKey sampleKey sampleKey rfl rfl

/-- Claim C7: any aggregated stream (an order-preserving interleaving of the
three behaviours' streams, as the spec describes the Event Aggregator)
projects back onto each source exactly — so per-source order is preserved
(if a behaviour emits A then B, the loop observes A before B) — and its
length is the sum of the sources' lengths, so no event is dropped. -/
theorem aggregator_preserves_source_order (as : List AutoNatEvent)
    (ids : List IdentifyEvent) (ks : List Empty) (m : List Event)
    (h : Interleaves as ids ks m) :
    autoNatEvents m = as ∧ identifyEvents m = ids
    ∧ m.length = as.length + ids.length + ks.length := by
  induction h with
  | nil => exact ⟨rfl, rfl, rfl⟩
  | consAutoNat a h2 ih =>
    refine ⟨?_, ?_, ?_⟩
    · simp [autoNatEvents, ih.1]
    · simp [identifyEvents, ih.2.1]
    · simp [ih.2.2]
      omega
  | consIdentify i h2 ih =>
    refine ⟨?_, ?_, ?_⟩
    · simp [autoNatEvents, ih.1]
    · simp [identifyEvents, ih.2.1]
    · simp [ih.2.2]
      omega
  | consKeepAlive k h2 ih => exact k.elim

theorem aggregator_preserves_source_order_witness :
    autoNatEvents sampleMerged = sampleAutoNatStream
    ∧ identifyEvents sampleMerged = sampleIdentifyStream
    ∧ sampleMerged.length
        = sampleAutoNatStream.length + sampleIdentifyStream.length
          + ([] : List Empty).length :=
  aggregator_preserves_source_order sampleAutoNatStream sampleIdentifyStream
    [] sampleMerged
    (Interleaves.consIdentify _ (Interleaves.consAutoNat _ Interleaves.nil))

/-- Claim C8: every run of `main` requests exactly one listen bind, at the
IPv4 loopback address `127.0.0.1` with the configured TCP port; no other
(in particular no non-loopback) listen address is ever requested. -/
theorem single_loopback_listen (opt : Opt) (key : PublicKey)
    (lres : Except ListenError Unit) (d : Multiaddr → Except DialError Unit)
    (events : List SwarmEvent) :
    (runMain opt key lres d events).listenRequests = [listenAddr opt.port]
    ∧ listenAddr opt.port = [Proto.ip4 127 0 0 1, Proto.tcp opt.port] := by
  constructor
  · cases lres with
    | error e => rfl
    | ok u =>
      obtain ⟨logs, hr⟩ := runLoop_eq opt
        { bootstrapped := false,
          swarm :=
            { dialOutcome := d, dialRequests := []
              listenRequests := [listenAddr opt.port] } }
        events
      simp only [runMain]
      rw [hr]
      simp [foldl_stepState_listenRequests]
  · rfl

/-- Claim C9: `handle_event` is infallible — for every input it returns `Ok`
of either `None` or `NewListenAddr` — and consequently the control loop's
`?` on its result never fails: `runLoop` returns `Ok` on every event
sequence. -/
theorem handle_event_infallible (opt : Opt) (s : SwarmState) (e : SwarmEvent)
    (st : LoopState) (evs : List SwarmEvent) :
    (∃ v, (handle_event opt s e).1 = Except.ok v
       ∧ (v = NodeEvent.none ∨ ∃ a, v = NodeEvent.newListenAddr a))
    ∧ ∃ st2 logs, runLoop opt st evs = Except.ok (st2, logs) := by
  constructor
  · refine ⟨nodeEventOf e, handle_event_fst opt s e, ?_⟩
    cases e
    case newListenAddr lid a => exact Or.inr ⟨a, rfl⟩
    all_goals exact Or.inl rfl
  · obtain ⟨logs, h⟩ := runLoop_eq opt st evs
    exact ⟨_, logs, h⟩

/-- Claim C10: `handle_event` leaves the swarm it receives unchanged, its
result does not depend on the options or the swarm (only on the event), and
the result is `Ok(NewListenAddr a)` exactly when the event is a
`NewListenAddr` carrying `a` (and `Ok(None)` otherwise, by C9's shape). -/
theorem handle_event_pure_frame (opt1 opt2 : Opt) (s1 s2 : SwarmState)
    (e : SwarmEvent) :
    (handle_event opt1 s1 e).2.1 = s1
    ∧ (handle_event opt1 s1 e).1 = (handle_event opt2 s2 e).1
    ∧ (∀ a, ((handle_event opt1 s1 e).1
          = Except.ok (NodeEvent.newListenAddr a)
        ↔ ∃ lid, e = SwarmEvent.newListenAddr lid a))
    ∧ ((∀ lid a, e ≠ SwarmEvent.newListenAddr lid a) →
        (handle_event opt1 s1 e).1 = Except.ok NodeEvent.none) := by
  refine ⟨handle_event_swarm opt1 s1 e, ?_, ?_, ?_⟩
  · rw [handle_event_fst, handle_event_fst]
  · intro a
    rw [handle_event_fst]
    simp only [Except.ok.injEq]
    exact nodeEventOf_newListenAddr_iff e a
  · intro h
    rw [handle_event_fst, nodeEventOf_none_of_ne e h]

end Safe
